import Mathlib

/- Verification of the NG12 Cancer Risk Assessor retrieval-grounding pipeline.

   Shallow embedding of `app/chat.py`, `app/agent.py` and
   `ingestion/ingest_pdf.py`.  Python strings are modelled as Lean `String`
   (a sequence of characters, matching Python code points); Python floats
   carrying cosine distances as `ℚ`; Python ints as `Int`/`Nat`.  The stdlib
   function `json.loads` is external to the repository and is modelled as an
   abstract parameter `loads : String → Option Json`, where `none` models a
   raised `json.JSONDecodeError`. -/

namespace NG12

/-! ### Python string primitives

Character-level implementations of the Python `str` operations the pipeline
uses (`lower`, `strip`, `rstrip`, `split`, `in`, `find`, `rfind`, slicing). -/

/-- Python `s.lower()` (case folding, character by character). -/
def pyLower (s : String) : String := ⟨s.data.map Char.toLower⟩

/-- Python `s.strip()` on a character list: drop whitespace from both ends. -/
def pyStripL (l : List Char) : List Char :=
  ((l.dropWhile Char.isWhitespace).reverse.dropWhile Char.isWhitespace).reverse

/-- Python `s.strip()`: drop whitespace from both ends. -/
def pyStrip (s : String) : String := ⟨pyStripL s.data⟩

/-- Python `s.rstrip(chars)`: drop trailing characters belonging to `cs`. -/
def pyRstrip (cs : List Char) (s : String) : String :=
  ⟨(s.data.reverse.dropWhile (fun c => cs.contains c)).reverse⟩

/-- Helper for Python's no-argument `s.split()`: accumulate the current word
(reversed) while scanning. -/
def wordsAux : List Char → List Char → List String
  | [], cur => if cur.isEmpty then [] else [⟨cur.reverse⟩]
  | c :: rest, cur =>
    if c.isWhitespace then
      if cur.isEmpty then wordsAux rest [] else ⟨cur.reverse⟩ :: wordsAux rest []
    else wordsAux rest (c :: cur)

/-- Python `s.split()`: split on whitespace runs, discarding empty words. -/
def pySplitWs (s : String) : List String := wordsAux s.data []

/-- Does `hay` begin with `needle`? -/
def startsWithL : List Char → List Char → Bool
  | _, [] => true
  | [], _ :: _ => false
  | h :: hs, n :: ns => h = n && startsWithL hs ns

/-- Index of the first occurrence of `needle` in `hay`
(Python `hay.find(needle)` restricted to the found case). -/
def findSub (needle : List Char) : List Char → Option Nat
  | [] => if startsWithL [] needle then some 0 else none
  | c :: hs =>
    if startsWithL (c :: hs) needle then some 0
    else (findSub needle hs).map (· + 1)

/-- Python `needle in hay` (substring containment). -/
def pyContains (hay needle : String) : Bool := (findSub needle.data hay.data).isSome

theorem findSub_lt {needle hay : List Char} {i : Nat} (hne : needle ≠ [])
    (h : findSub needle hay = some i) : i < hay.length := by
  induction hay generalizing i with
  | nil =>
    obtain ⟨n, ns, rfl⟩ := List.exists_cons_of_ne_nil hne
    simp [findSub, startsWithL] at h
  | cons c hs ih =>
    rw [findSub] at h
    split at h
    · simp only [Option.some.injEq] at h
      simp only [List.length_cons]
      omega
    · obtain ⟨j, hj, rfl⟩ := Option.map_eq_some'.mp h
      simpa using Nat.succ_lt_succ (ih hj)

/-- Python `hay.split(sep)` for a non-empty separator: leftmost,
non-overlapping splitting.  (Python raises on an empty separator; the
pipeline only ever splits on the fence markers, which are non-empty; for
totality an empty separator yields the unsplit string.) -/
def pySplit (sep : List Char) (hay : List Char) : List (List Char) :=
  match hsep : sep with
  | [] => [hay]
  | _ :: _ =>
    match hfind : findSub sep hay with
    | none => [hay]
    | some i => hay.take i :: pySplit sep (hay.drop (i + sep.length))
termination_by hay.length
decreasing_by
  have hi : i < hay.length := findSub_lt (by simp [hsep]) hfind
  simp only [List.length_drop]
  subst hsep
  simp only [List.length_cons]
  omega

/-! ### Retrieved chunks and the evidence-sufficiency gate (`app/chat.py`) -/

/-- One retrieval result, as the dict produced by `rag._query`:
a dict with keys chunk_id, page, text, distance. -/
structure RChunk where
  chunk_id : String
  page : Int
  text : String
  distance : ℚ
deriving DecidableEq

/-- `SIMILARITY_THRESHOLD = 1.2` (ChromaDB cosine distance) in `app/chat.py`.
Written in normalized form so that the kernel can evaluate comparisons with
it; `SIMILARITY_THRESHOLD_eq` below identifies it with the source literal. -/
def SIMILARITY_THRESHOLD : ℚ := ⟨6, 5, by norm_num, by norm_num⟩

theorem SIMILARITY_THRESHOLD_eq : SIMILARITY_THRESHOLD = 1.2 := by
  have h1 : SIMILARITY_THRESHOLD = (6 : ℚ) / 5 := by
    have h2 := Rat.num_div_den SIMILARITY_THRESHOLD
    simpa [SIMILARITY_THRESHOLD] using h2.symm
  rw [h1]
  norm_num

/-- `chat._has_good_evidence`: False on the empty result list, else whether the
minimum distance is strictly below the threshold. -/
def has_good_evidence (chunks : List RChunk) : Bool :=
  match chunks with
  | [] => false
  | c :: rest =>
    decide ((rest.foldl (fun a x => min a x.distance) c.distance) < SIMILARITY_THRESHOLD)

theorem foldl_min_lt (t : ℚ) (l : List RChunk) (d : ℚ) :
    (l.foldl (fun a x => min a x.distance) d) < t ↔ d < t ∨ ∃ c ∈ l, c.distance < t := by
  induction l generalizing d with
  | nil => simp
  | cons x xs ih =>
    simp only [List.foldl_cons, ih, min_lt_iff, List.mem_cons]
    constructor
    · rintro (⟨h | h⟩ | ⟨c, hc, hlt⟩)
      · exact Or.inl h
      · exact Or.inr ⟨x, Or.inl rfl, h⟩
      · exact Or.inr ⟨c, Or.inr hc, hlt⟩
    · rintro (h | ⟨c, (rfl | hc), hlt⟩)
      · exact Or.inl (Or.inl h)
      · exact Or.inl (Or.inr hlt)
      · exact Or.inr ⟨c, hc, hlt⟩

/-- C1: the evidence gate judges a result list adequate iff it is non-empty and
its minimum distance is strictly below the fixed threshold 1.2; a lone
distance 1.19 is adequate, a lone 1.2 is not, and the empty list is not. -/
theorem C1_evidence_gate :
    (∀ chunks : List RChunk,
        has_good_evidence chunks = true ↔ ∃ c ∈ chunks, c.distance < 1.2)
    ∧ has_good_evidence [⟨"c0", 1, "t", 1.19⟩] = true
    ∧ has_good_evidence [⟨"c0", 1, "t", 1.2⟩] = false
    ∧ has_good_evidence [] = false := by
  refine ⟨fun chunks => ?_,
    by norm_num [has_good_evidence, SIMILARITY_THRESHOLD_eq],
    by norm_num [has_good_evidence, SIMILARITY_THRESHOLD_eq], rfl⟩
  cases chunks with
  | nil => simp [has_good_evidence]
  | cons c rest =>
    have : (1.2 : ℚ) = SIMILARITY_THRESHOLD := SIMILARITY_THRESHOLD_eq.symm
    simp only [has_good_evidence, decide_eq_true_eq, foldl_min_lt, this, List.mem_cons]
    constructor
    · rintro (h | ⟨x, hx, hlt⟩)
      · exact ⟨c, Or.inl rfl, h⟩
      · exact ⟨x, Or.inr hx, hlt⟩
    · rintro ⟨x, (rfl | hx), hlt⟩
      · exact Or.inl hlt
      · exact Or.inr ⟨x, hx, hlt⟩

/-! ### Fixed strings and classifiers of `app/chat.py` -/

/-- The canned low-evidence answer `LOW_EVIDENCE_ANSWER`. -/
def LOW_EVIDENCE_ANSWER : String :=
  "I couldn't find support in the NG12 text for that question. "
  ++ "The retrieved guideline passages did not contain relevant information. "
  ++ "Please try rephrasing your question or ask about specific cancer types, "
  ++ "symptoms, or referral criteria covered by the NG12 guidelines."

/-- The exact-match greeting phrase set `GREETING_EXACT`. -/
def GREETING_EXACT : List String :=
  ["hi", "hii", "hiii", "hey", "hello", "howdy", "sup", "yo",
   "good morning", "good afternoon", "good evening", "good night",
   "thanks", "thank you", "bye", "goodbye", "see you",
   "what's up", "whats up", "how are you", "who are you",
   "what can you do", "help"]

/-- The single-word greeting set `GREETING_WORDS`. -/
def GREETING_WORDS : List String :=
  ["hi", "hii", "hiii", "hey", "hello", "howdy", "sup", "yo", "bye", "goodbye"]

/-- The canned greeting answer `GREETING_RESPONSE`. -/
def GREETING_RESPONSE : String :=
  "Hi there! I'm the NG12 Clinical Knowledge Assistant. I can help you with "
  ++ "questions about the NICE NG12 guidelines on suspected cancer recognition "
  ++ "and referral. Feel free to ask about symptoms, referral criteria, "
  ++ "investigations, or any topic covered by the guidelines."

/-- The disclaimer phrase markers `DISCLAIMER_PHRASES`. -/
def DISCLAIMER_PHRASES : List String :=
  ["couldn't find", "could not find", "not found",
   "no relevant", "no clear support", "unclear in ng12",
   "not contain relevant"]

/-- `chat._is_greeting`: exact match after trim/lowercase/strip trailing
punctuation, or a short message sharing a word with `GREETING_WORDS`. -/
def is_greeting (text : String) : Bool :=
  let cleaned := pyRstrip ['!', '?', '.', ','] (pyLower (pyStrip text))
  if GREETING_EXACT.contains cleaned then true
  else if cleaned.length < 60 && (pySplitWs cleaned).any (fun w => GREETING_WORDS.contains w)
    then true
  else false

/-- `chat._is_disclaimer`: case-insensitive substring match against the
disclaimer phrase list. -/
def is_disclaimer (text : String) : Bool :=
  DISCLAIMER_PHRASES.any (fun p => pyContains (pyLower text) p)

/-! ### JSON values and the two output parsers

`json.loads` itself is Python stdlib, external to the repository: it appears
throughout as an abstract `loads : String → Option Json` where `none` models a
raised `json.JSONDecodeError`. -/

/-- A parsed JSON value (`json.loads` result). JSON numbers are modelled as
integers; no claim depends on fractional numeric payloads. -/
inductive Json where
  | null : Json
  | bool (b : Bool) : Json
  | num (n : Int) : Json
  | str (s : String) : Json
  | arr (elems : List Json) : Json
  | obj (fields : List (String × Json)) : Json

/-- First binding for a key of a parsed JSON object (`json.loads` keeps the
last duplicate key, so keys are unique and first-wins is dict lookup). -/
def jlookup (fields : List (String × Json)) (k : String) : Option Json :=
  match fields with
  | [] => none
  | (k', v) :: rest => if k' = k then some v else jlookup rest k

def FENCE_JSON : List Char := "```json".data

def FENCE : List Char := "```".data

/-- The fence-handling prelude shared verbatim by `chat._parse_json` and
`agent._parse_json`: if a ```json marker is present take
`text.split("```json")[1].split("```")[0]`, else if a ``` marker is present
take `text.split("```")[1].split("```")[0]`, else the whole text. -/
def selectCandidate (raw_text : String) : String :=
  if pyContains raw_text "```json" then
    ⟨(pySplit FENCE ((pySplit FENCE_JSON raw_text.data).getD 1 [])).getD 0 []⟩
  else if pyContains raw_text "```" then
    ⟨(pySplit FENCE ((pySplit FENCE raw_text.data).getD 1 [])).getD 0 []⟩
  else raw_text

/-- `agent._parse_json`: fence selection then a single
`json.loads(text.strip())`; any failure propagates to the caller (there is no
brace-substring fallback stage in `app/agent.py`). -/
def agent_parse_json (loads : String → Option Json) (raw_text : String) : Option Json :=
  loads (pyStrip (selectCandidate raw_text))

/-- Index of the last occurrence of character `c` (Python `s.rfind(c)`
restricted to the found case). -/
def rfindChar (c : Char) (l : List Char) : Option Nat :=
  (findSub [c] l.reverse).map (fun i => l.length - 1 - i)

/-- `chat._parse_json`: fence selection, `json.loads(text.strip())`, and on
`JSONDecodeError` the substring of the raw text from the first opening brace
to the last closing brace inclusive (requiring `last > first`); if that too
fails the error propagates. -/
def chat_parse_json (loads : String → Option Json) (raw_text : String) : Option Json :=
  match loads (pyStrip (selectCandidate raw_text)) with
  | some v => some v
  | none =>
    match findSub ['\x7b'] raw_text.data, rfindChar '\x7d' raw_text.data with
    | some first, some last =>
      if first < last then loads ⟨(raw_text.data.drop first).take (last + 1 - first)⟩
      else none
    | _, _ => none

/-! ### Pydantic response models (`app/models.py`) -/

structure Citation where
  source : String
  page : Int
  chunk_id : String
  excerpt : String
deriving DecidableEq

structure ChatMessage where
  role : String
  content : String
  citations : List Citation
deriving DecidableEq

structure ChatResponse where
  session_id : String
  answer : String
  citations : List Citation
deriving DecidableEq

structure AssessResponse where
  patient_id : String
  patient_name : String
  risk_level : String
  assessment : String
  citations : List Citation
deriving DecidableEq

/-! ### Normalizing model-supplied citations -/

/-- A pydantic `str` field value: only a JSON string validates (pydantic does
not coerce numbers to `str`); anything else raises `ValidationError`. -/
def asPyStr : Json → Option String
  | .str s => some s
  | _ => none

/-- A pydantic `int` field value: a JSON integer, or (lax coercion) a string
spelling an integer; anything else raises `ValidationError`. -/
def asPyInt : Json → Option Int
  | .num n => some n
  | .str s => s.toInt?
  | _ => none

/-- Python `for c in parsed.get("citations", [])`: a JSON array iterates its
elements; an empty dict or empty string iterates nothing; a non-empty dict or
string yields strings whose `.get` raises `AttributeError`, and other values
are not iterable (`TypeError`) — both modelled as `none` (uncaught). -/
def iterCitations : Json → Option (List Json)
  | .arr elems => some elems
  | .obj [] => some []
  | .str "" => some []
  | _ => none

/-- One element of the model-supplied citation list:
`Citation(source=c.get("source", "NG12 PDF"), page=c.get("page", 0),
chunk_id=c.get("chunk_id", "unknown"), excerpt=c.get("excerpt", ""))`.
A non-dict element (`c.get` raises) or a field of the wrong shape
(pydantic `ValidationError`) is an uncaught exception, modelled `none`. -/
def buildCitation : Json → Option Citation
  | .obj fs =>
    match asPyStr ((jlookup fs "source").getD (.str "NG12 PDF")),
          asPyInt ((jlookup fs "page").getD (.num 0)),
          asPyStr ((jlookup fs "chunk_id").getD (.str "unknown")),
          asPyStr ((jlookup fs "excerpt").getD (.str "")) with
    | some s, some p, some cid, some ex => some ⟨s, p, cid, ex⟩
    | _, _, _, _ => none
  | _ => none

/-- `chat._citations_from_chunks` (the Python default `limit=3` is passed
explicitly at call sites): synthesize citations from the first `limit`
retrieved chunks, the excerpt truncated to 200 characters with a `"..."`
marker when longer. -/
def citations_from_chunks (chunks : List RChunk) (limit : Nat) : List Citation :=
  (chunks.take limit).map fun c =>
    { source := "NG12 PDF"
      page := c.page
      chunk_id := c.chunk_id
      excerpt := if 200 < c.text.length then c.text.take 200 ++ "..." else c.text }

/-! ### The conversational pipeline (`chat.chat_with_guidelines`) -/

/-- The system prompt `chat.SYSTEM_PROMPT` (its content is never inspected by
the pipeline; literal braces are written with \x7b/\x7d escapes). -/
def SYSTEM_PROMPT : String :=
  "You are an NG12 Clinical Knowledge Assistant. Your sole purpose is to\n"
  ++ "answer questions about the NICE NG12 guidelines (\"Suspected cancer: recognition and referral\")\n"
  ++ "using ONLY the retrieved guideline passages provided below.\n"
  ++ "\n"
  ++ "## CRITICAL OUTPUT RULES:\n"
  ++ "- Your ENTIRE response must be a single valid JSON object. No text before or after the JSON.\n"
  ++ "- Do NOT repeat the retrieved passages verbatim. SYNTHESIZE and SUMMARIZE the information\n"
  ++ "  in your own words, organized clearly for the reader.\n"
  ++ "- When the user asks to \"summarize\", provide a concise, well-structured summary with\n"
  ++ "  key points — do NOT copy-paste the raw guideline text.\n"
  ++ "\n"
  ++ "## Handling Greetings & Non-Clinical Messages:\n"
  ++ "If the user sends a greeting or non-clinical message, respond with:\n"
  ++ "\x7b\"answer\": \"Hi there! I'm the NG12 Clinical Knowledge Assistant. I can help you with questions about the NICE NG12 guidelines on suspected cancer recognition and referral.\", \"citations\": []\x7d\n"
  ++ "\n"
  ++ "## Strict Rules:\n"
  ++ "1. ONLY use information from the RETRIEVED CONTEXT below. Never use your own knowledge.\n"
  ++ "2. ALWAYS include citations for every clinical statement — use the chunk_id, page number,\n"
  ++ "   and a short excerpt (1-2 sentences max) from the retrieved passage.\n"
  ++ "3. NEVER invent or guess:\n"
  ++ "   - Age thresholds (e.g., \"refer if over 40\") unless the retrieved text explicitly states them.\n"
  ++ "   - Investigation intervals or timelines not found in the retrieved text.\n"
  ++ "   - Referral criteria not present in the retrieved text.\n"
  ++ "4. NEVER reference documents other than NG12.\n"
  ++ "5. If the retrieved context does not contain enough information to answer the question,\n"
  ++ "   you MUST say: \"I couldn't find clear support in the NG12 guidelines for that question.\"\n"
  ++ "   and return an empty citations list.\n"
  ++ "6. When the user asks a follow-up, use the conversation history for context but still\n"
  ++ "   ground your answer in the retrieved guideline passages.\n"
  ++ "\n"
  ++ "## Output Format:\n"
  ++ "Respond with ONLY this JSON (no markdown, no extra text):\n"
  ++ "\x7b\n"
  ++ "  \"answer\": \"<your synthesized, well-structured answer — NOT a verbatim copy of the passages>\",\n"
  ++ "  \"citations\": [\n"
  ++ "    \x7b\n"
  ++ "      \"source\": \"NG12 PDF\",\n"
  ++ "      \"page\": <page number>,\n"
  ++ "      \"chunk_id\": \"<chunk identifier>\",\n"
  ++ "      \"excerpt\": \"<1-2 sentence excerpt from the guideline>\"\n"
  ++ "    \x7d\n"
  ++ "  ]\n"
  ++ "\x7d\n"

/-- `chat._format_context`: render each retrieved chunk with its id, page and
distance.  `fmt3` models the Python float format directive .3f (stdlib
rendering of IEEE doubles, external to the repository). -/
def format_context (fmt3 : ℚ → String) (chunks : List RChunk) : String :=
  if chunks.isEmpty then "No relevant guideline passages were retrieved."
  else
    String.intercalate "\n\n---\n\n"
      (chunks.map fun c =>
        "[Chunk " ++ c.chunk_id ++ " | Page " ++ toString c.page
        ++ " | Distance " ++ fmt3 c.distance ++ "]\n" ++ c.text)

/-- The Gemini message list built by `chat_with_guidelines` for one turn:
system prompt, then `history[:-1][-20:]` (the windowed prior turns, the
just-appended user message excluded), then the retrieved-context user turn. -/
def build_messages (fmt3 : ℚ → String) (hist1 : List ChatMessage)
    (message : String) (chunks : List RChunk) : List (String × String) :=
  [("system", SYSTEM_PROMPT)]
  ++ ((hist1.dropLast.drop (hist1.dropLast.length - 20)).map fun m => (m.role, m.content))
  ++ [("user", "RETRIEVED CONTEXT:\n" ++ format_context fmt3 chunks
        ++ "\n\nUSER QUESTION:\n" ++ message)]

/-- The external collaborators of one chat turn: `json.loads`, the retrieval
stack (`rag.query_guidelines_text` = embedding service + ChromaDB), the
generative model (`llm.invoke(messages).content`), and float formatting. -/
structure Env where
  loads : String → Option Json
  retrieve : String → Nat → List RChunk
  llm : List (String × String) → String
  fmt3 : ℚ → String

/-- The body of the `try:` block of `chat_with_guidelines` after
`_parse_json` succeeds: extract `answer` (defaulting to the raw text) and the
normalized citation list, then apply the disclaimer override and the
back-fill.  `none` models an uncaught exception (`AttributeError` /
pydantic `ValidationError`; only `json.JSONDecodeError` and `KeyError` are
routed to the raw-text fallback). -/
def chatSuccessBranch (parsed : Json) (raw_text : String) (chunks : List RChunk) :
    Option (String × List Citation) :=
  match parsed with
  | .obj fs => do
    let elems ← iterCitations ((jlookup fs "citations").getD (.arr []))
    let citations ← elems.mapM buildCitation
    let answer ← asPyStr ((jlookup fs "answer").getD (.str raw_text))
    let citations' :=
      if is_disclaimer answer then []
      else if citations.isEmpty && has_good_evidence chunks then
        citations_from_chunks chunks 3
      else citations
    some (answer, citations')
  | _ => none

/-- The observable outcome of one `chat_with_guidelines` call: the returned
`ChatResponse` (`none` models an uncaught exception escaping the call), the
session history after the call, and the message list sent to the generative
model (`none` when the model was never invoked). -/
structure ChatResult where
  response : Option ChatResponse
  history : List ChatMessage
  llmPrompt : Option (List (String × String))

/-- `chat.chat_with_guidelines` for one turn, as a function of the prior
session history (the Python default `top_k=5` is passed explicitly). -/
def chat_with_guidelines (env : Env) (history : List ChatMessage)
    (session_id message : String) (top_k : Nat) : ChatResult :=
  let hist1 := history ++ [⟨"user", message, []⟩]
  if is_greeting message then
    { response := some ⟨session_id, GREETING_RESPONSE, []⟩
      history := hist1 ++ [⟨"assistant", GREETING_RESPONSE, []⟩]
      llmPrompt := none }
  else
    let retrieved_chunks := env.retrieve message top_k
    if !has_good_evidence retrieved_chunks then
      { response := some ⟨session_id, LOW_EVIDENCE_ANSWER, []⟩
        history := hist1 ++ [⟨"assistant", LOW_EVIDENCE_ANSWER, []⟩]
        llmPrompt := none }
    else
      let messages := build_messages env.fmt3 hist1 message retrieved_chunks
      let raw_text := env.llm messages
      match chat_parse_json env.loads raw_text with
      | some parsed =>
        match chatSuccessBranch parsed raw_text retrieved_chunks with
        | some (answer, citations) =>
          { response := some ⟨session_id, answer, citations⟩
            history := hist1 ++ [⟨"assistant", answer, citations⟩]
            llmPrompt := some messages }
        | none => { response := none, history := hist1, llmPrompt := some messages }
      | none =>
        let answer := raw_text
        let citations :=
          if is_disclaimer answer then [] else citations_from_chunks retrieved_chunks 3
        { response := some ⟨session_id, answer, citations⟩
          history := hist1 ++ [⟨"assistant", answer, citations⟩]
          llmPrompt := some messages }

/-! ### The one-shot assessment (`agent.assess_patient`)

The agentic tool-invocation loop is an external black box (LangGraph + Gemini): its final
message content enters as `final_text`.  The patient record store is keyed by
id; a present patient contributes only `patient.name` to the result (a missing
id raises `KeyError` inside and outside the `try:` block alike, so the call
escapes with an exception; the claims below concern present patients). -/

/-- `agent.assess_patient` after the agent loop has produced `final_text`:
parse, normalize citations, and read `risk_level` / `assessment` with their
defaults; a `JSONDecodeError` (or `KeyError`) degrades to the
`"Assessment Error"` sentinel preserving the raw text; shape violations after
a successful parse escape as uncaught exceptions (`none`). -/
def assess_patient (loads : String → Option Json) (final_text : String)
    (patient_id patient_name : String) : Option AssessResponse :=
  match agent_parse_json loads final_text with
  | none =>
    some { patient_id := patient_id
           patient_name := patient_name
           risk_level := "Assessment Error"
           assessment := "Agent returned non-JSON response: " ++ final_text
           citations := [] }
  | some parsed =>
    match parsed with
    | .obj fs => do
      let elems ← iterCitations ((jlookup fs "citations").getD (.arr []))
      let citations ← elems.mapM buildCitation
      let risk_level ← asPyStr ((jlookup fs "risk_level").getD (.str "Unknown"))
      let assessment ← asPyStr ((jlookup fs "assessment").getD (.str final_text))
      some { patient_id := patient_id
             patient_name := patient_name
             risk_level := risk_level
             assessment := assessment
             citations := citations }
    | _ => none

/-! ### Chunking (`ingestion/ingest_pdf.chunk_text`)

The `while start < len(text)` loop has no guard against a non-positive step
`char_chunk_size - char_overlap`, so it is embedded with explicit fuel:
`none` means the loop did not terminate within `fuel` iterations (and, as
proved below, for a non-positive step it terminates for no fuel at all). -/

/-- A page as produced by `extract_pages`: a dict with keys page and text. -/
structure Page where
  page : Nat
  text : String
deriving DecidableEq

/-- An emitted chunk: a dict with keys chunk_id, page and text (stripped). -/
structure Chunk where
  chunk_id : String
  page : Nat
  text : String
deriving DecidableEq

/-- The decimal digit characters. -/
def digitChar10 : Nat → Char
  | 0 => '0' | 1 => '1' | 2 => '2' | 3 => '3' | 4 => '4'
  | 5 => '5' | 6 => '6' | 7 => '7' | 8 => '8' | _ => '9'

/-- Little-endian decimal digits of `n` (empty for `n = 0`); the fuel is an
upper bound on the digit count, consumed structurally. -/
def digitsAux10 : Nat → Nat → List Nat
  | 0, _ => []
  | fuel + 1, n => if n = 0 then [] else n % 10 :: digitsAux10 fuel (n / 10)

/-- Decimal digits of `n`, most significant first (Python `str(n)`). -/
def natRepr (n : Nat) : List Char :=
  if n = 0 then ['0'] else ((digitsAux10 n n).map digitChar10).reverse

/-- Python formatting of `n` zero-padded on the left to width `w`, as in the
format directive 04d (padding never truncates). -/
def padNum (w n : Nat) : List Char :=
  List.replicate (w - (natRepr n).length) '0' ++ natRepr n

/-- The chunk id: `"ng12_p"`, the page number zero-padded to width 3, `"_c"`,
the process-wide chunk counter zero-padded to width 4. -/
def mkChunkId (page_num counter : Nat) : String :=
  ⟨"ng12_p".data ++ padNum 3 page_num ++ "_c".data ++ padNum 4 counter⟩

/-- Python slice `text[start:end]` (clamping, negative indices from the end). -/
def pySlice (l : List Char) (s e : Int) : List Char :=
  let n : Int := l.length
  let s' := if s < 0 then max 0 (n + s) else min s n
  let e' := if e < 0 then max 0 (n + e) else min e n
  (l.drop s'.toNat).take (e' - s').toNat

/-- The per-page `while start < len(text)` loop of `chunk_text`, with fuel.
Returns the accumulated chunk list, the updated process-wide chunk counter,
and the number of executed loop iterations (window steps). -/
def chunkPageLoop (char_chunk_size char_overlap page_num : Nat) (text : List Char) :
    Nat → Int → Nat → List Chunk → Option (List Chunk × Nat × Nat)
  | 0, _, _, _ => none
  | fuel + 1, start, counter, acc =>
    if start < (text.length : Int) then
      match chunkPageLoop char_chunk_size char_overlap page_num text fuel
          (start + ((char_chunk_size : Int) - char_overlap))
          (if (pyStripL (pySlice text start (start + char_chunk_size))).isEmpty
           then counter else counter + 1)
          (if (pyStripL (pySlice text start (start + char_chunk_size))).isEmpty
           then acc
           else acc ++ [⟨mkChunkId page_num counter, page_num,
                         ⟨pyStripL (pySlice text start (start + char_chunk_size))⟩⟩]) with
      | none => none
      | some (res, counter', steps) => some (res, counter', steps + 1)
    else some (acc, counter, 0)

/-- The page fold of `chunk_text`, threading the process-wide chunk counter.
Every page runs its loop with the same fuel. -/
def chunkPages (fuel char_chunk_size char_overlap : Nat) :
    List Page → Nat → List Chunk → Option (List Chunk × Nat)
  | [], counter, chunks => some (chunks, counter)
  | p :: rest, counter, chunks =>
    match chunkPageLoop char_chunk_size char_overlap p.page p.text.data fuel 0 counter chunks with
    | none => none
    | some (chunks', counter', _) =>
      chunkPages fuel char_chunk_size char_overlap rest counter' chunks'

/-- `ingest_pdf.chunk_text` (Python defaults `chunk_size=500`, `overlap=100`):
character-based windowing with `char_chunk_size = chunk_size * 4` and
`char_overlap = overlap * 4`. -/
def chunk_text (fuel : Nat) (pages : List Page) (chunk_size overlap : Nat) :
    Option (List Chunk) :=
  (chunkPages fuel (chunk_size * 4) (overlap * 4) pages 0 []).map Prod.fst

/-! ### Chunking lemmas -/

/-- With a non-positive window step the `while` loop never terminates: the
loop body never raises a configuration error and `start` never advances past
the end of a non-empty page. -/
theorem chunkPageLoop_none_of_step_nonpos (ccs co page_num : Nat) (text : List Char)
    (hstep : (ccs : Int) - co ≤ 0) :
    ∀ (fuel : Nat) (start : Int) (counter : Nat) (acc : List Chunk),
      start < (text.length : Int) →
      chunkPageLoop ccs co page_num text fuel start counter acc = none := by
  intro fuel
  induction fuel with
  | zero => intro start counter acc _; rfl
  | succ n ih =>
    intro start counter acc hstart
    rw [chunkPageLoop, if_pos hstart, ih _ _ _ (by omega)]

theorem digitChar10_isDigit {d : Nat} (hd : d < 10) : (digitChar10 d).isDigit = true := by
  interval_cases d <;> decide

theorem digitChar10_val {d : Nat} (hd : d < 10) : (digitChar10 d).toNat - 48 = d := by
  interval_cases d <;> decide

theorem digitsAux10_eq_digits :
    ∀ (fuel n : Nat), n ≤ fuel → digitsAux10 fuel n = Nat.digits 10 n := by
  intro fuel
  induction fuel with
  | zero =>
    intro n hn
    have : n = 0 := by omega
    subst this
    simp [digitsAux10]
  | succ m ih =>
    intro n hn
    rw [digitsAux10]
    by_cases h0 : n = 0
    · subst h0; simp
    · rw [if_neg h0, Nat.digits_def' (by norm_num : 1 < 10) (by omega),
        ih (n / 10) (by have := Nat.div_lt_self (by omega : 0 < n) (by norm_num : 1 < 10); omega)]

theorem natRepr_isDigit (n : Nat) : ∀ c ∈ natRepr n, c.isDigit = true := by
  intro c hc
  unfold natRepr at hc
  rw [digitsAux10_eq_digits n n le_rfl] at hc
  split at hc
  · simp only [List.mem_singleton] at hc
    subst hc; decide
  · simp only [List.mem_reverse, List.mem_map] at hc
    obtain ⟨d, hd, rfl⟩ := hc
    exact digitChar10_isDigit (Nat.digits_lt_base (by norm_num) hd)

/-- Numeric value of a digit string, most significant digit first. -/
def digitsVal (l : List Char) : Nat := l.foldl (fun a c => 10 * a + (c.toNat - 48)) 0

theorem foldl_digits_reverse (init : Nat) :
    ∀ (l : List Nat), (∀ d ∈ l, d < 10) →
      ((l.map digitChar10).reverse).foldl (fun a c => 10 * a + (c.toNat - 48)) init
        = init * 10 ^ l.length + Nat.ofDigits 10 l := by
  intro l
  induction l generalizing init with
  | nil => intro _; simp
  | cons d rest ih =>
    intro hlt
    have hrev : (((d :: rest).map digitChar10).reverse)
        = ((rest.map digitChar10).reverse) ++ [digitChar10 d] := by simp
    rw [hrev, List.foldl_append, ih init (fun x hx => hlt x (List.mem_cons_of_mem _ hx))]
    simp only [List.foldl_cons, List.foldl_nil, Nat.ofDigits_cons]
    have hd : (digitChar10 d).toNat - 48 = d := digitChar10_val (hlt d (List.mem_cons_self _ _))
    rw [hd]
    simp only [List.length_cons, pow_succ]
    ring

theorem digitsVal_natRepr (n : Nat) : digitsVal (natRepr n) = n := by
  unfold digitsVal natRepr
  rw [digitsAux10_eq_digits n n le_rfl]
  split
  · rename_i h
    subst h
    decide
  · rw [foldl_digits_reverse 0 (Nat.digits 10 n)
        (fun d hd => Nat.digits_lt_base (by norm_num) hd)]
    simp [Nat.ofDigits_digits]

theorem digitsVal_replicate_zero (k : Nat) (l : List Char) :
    digitsVal (List.replicate k '0' ++ l) = digitsVal l := by
  induction k with
  | zero => rfl
  | succ n ih =>
    unfold digitsVal at ih ⊢
    rw [List.replicate_succ, List.cons_append, List.foldl_cons]
    exact ih

theorem digitsVal_padNum (w n : Nat) : digitsVal (padNum w n) = n := by
  unfold padNum
  rw [digitsVal_replicate_zero, digitsVal_natRepr]

theorem padNum_isDigit (w n : Nat) : ∀ c ∈ padNum w n, c.isDigit = true := by
  intro c hc
  unfold padNum at hc
  rcases List.mem_append.mp hc with h | h
  · rw [List.eq_of_mem_replicate h]; decide
  · exact natRepr_isDigit n c h

theorem takeWhile_append_of_all {p : Char → Bool} :
    ∀ {l1 l2 : List Char}, (∀ c ∈ l1, p c = true) →
      (l1 ++ l2).takeWhile p = l1 ++ l2.takeWhile p := by
  intro l1
  induction l1 with
  | nil => intro l2 _; rfl
  | cons c rest ih =>
    intro l2 h
    rw [List.cons_append, List.takeWhile_cons_of_pos (h c (List.mem_cons_self _ _)),
      ih (fun x hx => h x (List.mem_cons_of_mem _ hx)), List.cons_append]

/-- The value of the trailing run of decimal digits of a string: recovers the
sequence-counter suffix `_c{counter:04d}` of a chunk id. -/
def trailingNum (s : String) : Nat :=
  digitsVal (s.data.reverse.takeWhile Char.isDigit).reverse

theorem trailingNum_mkChunkId (p c : Nat) : trailingNum (mkChunkId p c) = c := by
  unfold trailingNum mkChunkId
  show digitsVal ((("ng12_p".data ++ padNum 3 p ++ "_c".data ++ padNum 4 c).reverse.takeWhile
    Char.isDigit).reverse) = c
  have hrev : ("ng12_p".data ++ padNum 3 p ++ "_c".data ++ padNum 4 c).reverse
      = (padNum 4 c).reverse ++ ("_c".data.reverse ++ ((padNum 3 p).reverse
          ++ "ng12_p".data.reverse)) := by
    simp [List.reverse_append]
  rw [hrev, takeWhile_append_of_all
    (fun x hx => padNum_isDigit 4 c x (List.mem_reverse.mp hx))]
  have hc : ("_c".data.reverse ++ ((padNum 3 p).reverse ++ "ng12_p".data.reverse)).takeWhile
      Char.isDigit = [] := by
    show (('c' :: ('_' :: [])) ++ _).takeWhile Char.isDigit = []
    rw [List.cons_append, List.takeWhile_cons_of_neg (by decide)]
  rw [hc, List.append_nil, List.reverse_reverse, digitsVal_padNum]

theorem mkChunkId_inj_counter {p1 c1 p2 c2 : Nat} (h : mkChunkId p1 c1 = mkChunkId p2 c2) :
    c1 = c2 := by
  have h2 := congrArg trailingNum h
  rwa [trailingNum_mkChunkId, trailingNum_mkChunkId] at h2

theorem stepCount_rec {a s : Nat} (ha : 1 ≤ a) (hs : 1 ≤ s) :
    (a + s - 1) / s = (a - s + s - 1) / s + 1 := by
  have h1 : a + s - 1 = (a - 1) + s := by omega
  rw [h1, Nat.add_div_right _ (by omega)]
  by_cases hc : s ≤ a
  · have h2 : a - s + s - 1 = a - 1 := by omega
    rw [h2]
  · have h2 : a - s = 0 := by omega
    rw [h2]
    simp only [Nat.zero_add]
    rw [Nat.div_eq_of_lt (by omega), Nat.div_eq_of_lt (by omega)]

/-- Invariant of the per-page loop for a positive step: it terminates within
`fuel > ⌈remaining⌉` iterations, emits chunks whose ids carry the page number
and consecutive counter values, and executes exactly
`⌈(len − start) / (char_chunk_size − char_overlap)⌉` iterations. -/
theorem chunkPageLoop_spec (ccs co page_num : Nat) (text : List Char) (hco : co < ccs) :
    ∀ (fuel : Nat) (start : Int) (counter : Nat) (acc : List Chunk),
      0 ≤ start → (((text.length : Int) - start).toNat < fuel) →
      ∃ (nc : List Chunk) (steps : Nat),
        chunkPageLoop ccs co page_num text fuel start counter acc
          = some (acc ++ nc, counter + nc.length, steps)
        ∧ (∀ (i : Nat) (ch : Chunk), nc[i]? = some ch →
            ch.chunk_id = mkChunkId page_num (counter + i) ∧ ch.page = page_num)
        ∧ steps = (((text.length : Int) - start).toNat + (ccs - co) - 1) / (ccs - co) := by
  intro fuel
  induction fuel with
  | zero => intro start counter acc _ hf; omega
  | succ n ih =>
    intro start counter acc h0 hf
    by_cases hlt : start < (text.length : Int)
    · by_cases hE : (pyStripL (pySlice text start (start + ccs))).isEmpty = true
      · obtain ⟨nc, steps, heq, hids, hsteps⟩ :=
          ih (start + ((ccs : Int) - co)) counter acc (by omega) (by omega)
        refine ⟨nc, steps + 1, ?_, hids, ?_⟩
        · rw [chunkPageLoop, if_pos hlt]
          simp only [hE, if_true, heq]
        · rw [hsteps]
          have h2 : ((text.length : Int) - (start + ((ccs : Int) - co))).toNat
              = ((text.length : Int) - start).toNat - (ccs - co) := by omega
          rw [h2]
          exact (stepCount_rec (by omega) (by omega)).symm
      · have hE' : (pyStripL (pySlice text start (start + ccs))).isEmpty = false :=
          eq_false_of_ne_true hE
        obtain ⟨nc, steps, heq, hids, hsteps⟩ :=
          ih (start + ((ccs : Int) - co)) (counter + 1)
            (acc ++ [⟨mkChunkId page_num counter, page_num,
              ⟨pyStripL (pySlice text start (start + ccs))⟩⟩]) (by omega) (by omega)
        refine ⟨⟨mkChunkId page_num counter, page_num,
          ⟨pyStripL (pySlice text start (start + ccs))⟩⟩ :: nc, steps + 1, ?_, ?_, ?_⟩
        · rw [chunkPageLoop, if_pos hlt]
          simp only [hE', Bool.false_eq_true, if_false, heq]
          simp [List.append_assoc]
          omega
        · intro i ch hch
          match i with
          | 0 =>
            rw [List.getElem?_cons_zero] at hch
            cases hch
            exact ⟨by simp, rfl⟩
          | j + 1 =>
            rw [List.getElem?_cons_succ] at hch
            have h3 := hids j ch hch
            have h4 : counter + 1 + j = counter + (j + 1) := by omega
            rw [h4] at h3
            exact h3
        · rw [hsteps]
          have h2 : ((text.length : Int) - (start + ((ccs : Int) - co))).toNat
              = ((text.length : Int) - start).toNat - (ccs - co) := by omega
          rw [h2]
          exact (stepCount_rec (by omega) (by omega)).symm
    · refine ⟨[], 0, ?_, by simp, ?_⟩
      · rw [chunkPageLoop, if_neg hlt]
        simp
      · have h2 : ((text.length : Int) - start).toNat = 0 := by omega
        rw [h2]
        simp only [Nat.zero_add]
        exact (Nat.div_eq_of_lt (by omega)).symm

/-- Invariant of the page fold: chunks across all pages carry consecutive
counter values starting at `counter`, each id built from that chunk's own
page number. -/
theorem chunkPages_spec (fuel ccs co : Nat) (hco : co < ccs) :
    ∀ (pages : List Page) (counter : Nat) (acc : List Chunk),
      (∀ p ∈ pages, p.text.length < fuel) →
      ∃ nc : List Chunk,
        chunkPages fuel ccs co pages counter acc = some (acc ++ nc, counter + nc.length)
        ∧ ∀ (i : Nat) (ch : Chunk), nc[i]? = some ch →
            ch.chunk_id = mkChunkId ch.page (counter + i) := by
  intro pages
  induction pages with
  | nil =>
    intro counter acc _
    refine ⟨[], by simp [chunkPages], ?_⟩
    intro i ch h
    simp at h
  | cons p rest ih =>
    intro counter acc hp
    have hlen : (((p.text.data.length : Int) - 0).toNat < fuel) := by
      have h5 := hp p (List.mem_cons_self _ _)
      have h6 : p.text.length = p.text.data.length := rfl
      omega
    obtain ⟨nc1, steps, heq1, hids1, _⟩ :=
      chunkPageLoop_spec ccs co p.page p.text.data hco fuel 0 counter acc (by omega) hlen
    obtain ⟨nc2, heq2, hids2⟩ :=
      ih (counter + nc1.length) (acc ++ nc1)
        (fun q hq => hp q (List.mem_cons_of_mem _ hq))
    refine ⟨nc1 ++ nc2, ?_, ?_⟩
    · have hmid : chunkPages fuel ccs co (p :: rest) counter acc
          = chunkPages fuel ccs co rest (counter + nc1.length) (acc ++ nc1) := by
        rw [chunkPages, heq1]
      rw [hmid, heq2]
      simp [List.append_assoc, List.length_append, Nat.add_assoc]
    · intro i ch hch
      by_cases hi : i < nc1.length
      · rw [List.getElem?_append_left hi] at hch
        obtain ⟨hid, hpg⟩ := hids1 i ch hch
        rw [hid, hpg]
      · rw [List.getElem?_append_right (by omega)] at hch
        have h3 := hids2 (i - nc1.length) ch hch
        have h4 : counter + nc1.length + (i - nc1.length) = counter + i := by omega
        rw [h4] at h3
        exact h3

/-- A chunk list whose ids carry consecutive counter values has pairwise
distinct ids. -/
theorem nodup_ids_aux :
    ∀ (l : List Chunk) (counter : Nat),
      (∀ (i : Nat) (ch : Chunk), l[i]? = some ch → trailingNum ch.chunk_id = counter + i) →
      (l.map Chunk.chunk_id).Nodup := by
  intro l
  induction l with
  | nil => intro counter _; simp
  | cons c rest ih =>
    intro counter h
    simp only [List.map_cons, List.nodup_cons]
    constructor
    · intro hmem
      obtain ⟨ch', hch', hideq⟩ := List.mem_map.mp hmem
      obtain ⟨j, hj⟩ := List.getElem?_of_mem hch'
      have h1 : trailingNum c.chunk_id = counter + 0 := h 0 c (by simp)
      have h2 : trailingNum ch'.chunk_id = counter + (j + 1) :=
        h (j + 1) ch' (by rw [List.getElem?_cons_succ]; exact hj)
      rw [hideq] at h2
      omega
    · refine ih (counter + 1) ?_
      intro i ch hch
      have h3 := h (i + 1) ch (by rw [List.getElem?_cons_succ]; exact hch)
      omega

/-! ### Claims C3 and C4 -/

/-- C3: the claim says a configuration with overlap ≥ chunk size is rejected
with a fatal configuration error; the code has no such check and its window
step is non-positive, so on a non-empty page the `while` loop never
terminates: at the failing input (`chunk_size=1`, `overlap=1`, one page
`"abcd"`) `chunk_text` completes for no amount of fuel and no error is ever
produced. -/
theorem C3_overlap_config_loops :
    ∀ fuel : Nat, chunk_text fuel [⟨1, "abcd"⟩] 1 1 = none := by
  intro fuel
  have h := chunkPageLoop_none_of_step_nonpos 4 4 1 "abcd".data (by norm_num)
    fuel 0 0 [] (by decide)
  cases fuel with
  | zero => rfl
  | succ n =>
    unfold chunk_text chunkPages
    rw [h]
    rfl

/-- C4 (amended): for overlap < chunk size, chunking terminates whenever the
fuel exceeds every page length; emitted chunk ids are pairwise distinct and
each encodes its own page number plus a sequence counter; chunking is
deterministic (identical input yields identical output); and for a page of
character length `L` the number of window steps is exactly
`⌈L / (C − O)⌉` in character units (`C = chunk_size*4`, `O = overlap*4`) —
not the claimed `⌈(L − O)/(C − O)⌉ ± 1`, which the counterexample refutes. -/
theorem C4_chunking (pages : List Page) (chunk_size overlap fuel : Nat)
    (hov : overlap < chunk_size) (hfuel : ∀ p ∈ pages, p.text.length < fuel) :
    (∃ chunks, chunk_text fuel pages chunk_size overlap = some chunks
      ∧ (chunks.map Chunk.chunk_id).Nodup
      ∧ (∀ ch ∈ chunks, ∃ seq, ch.chunk_id = mkChunkId ch.page seq)
      ∧ chunk_text fuel pages chunk_size overlap = chunk_text fuel pages chunk_size overlap)
    ∧ (∀ (p : Page) (counter : Nat), p.text.length < fuel →
        ∃ res counter' steps,
          chunkPageLoop (chunk_size * 4) (overlap * 4) p.page p.text.data fuel 0 counter []
            = some (res, counter', steps)
          ∧ steps = (p.text.length + (chunk_size * 4 - overlap * 4) - 1)
                      / (chunk_size * 4 - overlap * 4)) := by
  have hco : overlap * 4 < chunk_size * 4 := by omega
  constructor
  · obtain ⟨nc, heq, hids⟩ :=
      chunkPages_spec fuel (chunk_size * 4) (overlap * 4) hco pages 0 [] hfuel
    refine ⟨nc, ?_, ?_, ?_, rfl⟩
    · unfold chunk_text
      rw [heq]
      simp
    · refine nodup_ids_aux nc 0 ?_
      intro i ch hch
      rw [hids i ch hch, trailingNum_mkChunkId]
    · intro ch hch
      obtain ⟨i, hi⟩ := List.getElem?_of_mem hch
      exact ⟨0 + i, hids i ch hi⟩
  · intro p counter hlen
    obtain ⟨nc, steps, heq, _, hsteps⟩ :=
      chunkPageLoop_spec (chunk_size * 4) (overlap * 4) p.page p.text.data hco fuel 0 counter []
        (by omega) (by have h6 : p.text.length = p.text.data.length := rfl; omega)
    refine ⟨[] ++ nc, counter + nc.length, steps, heq, ?_⟩
    rw [hsteps]
    have h7 : ((p.text.data.length : Int) - 0).toNat = p.text.length := by
      have h6 : p.text.length = p.text.data.length := rfl
      omega
    rw [h7]

/-- Witness for C4 at a concrete input: one 27-character page,
`chunk_size=1`, `overlap=0`, fuel 40. -/
theorem C4_chunking_witness :
    ((0 : Nat) < 1 ∧ ∀ p ∈ [Page.mk 1 "hello world, this is a page"], p.text.length < 40)
    ∧ (∃ chunks, chunk_text 40 [Page.mk 1 "hello world, this is a page"] 1 0 = some chunks
        ∧ (chunks.map Chunk.chunk_id).Nodup
        ∧ (∀ ch ∈ chunks, ∃ seq, ch.chunk_id = mkChunkId ch.page seq)) := by
  refine ⟨⟨by decide, by decide⟩, ?_⟩
  obtain ⟨chunks, h1, h2, h3, _⟩ :=
    (C4_chunking [Page.mk 1 "hello world, this is a page"] 1 0 40
      (by decide) (by decide)).1
  exact ⟨chunks, h1, h2, h3⟩

/-- C4 counterexample to the claimed step-count formula: a page of 40
characters with character chunk size 16 and character overlap 12
(`chunk_size=4`, `overlap=3`) executes 10 window steps and emits 10 chunks,
while `⌈(L − O)/(C − O)⌉ = ⌈(40 − 12)/4⌉ = 7`, which is not within ±1. -/
theorem C4_counterexample :
    (chunkPageLoop 16 12 1 "aaaaaaaaaaaaaaaaaaaaaaaaaaaaaaaaaaaaaaaa".data 50 0 0 []).map
        (fun t => t.2.2) = some 10
    ∧ (chunk_text 50 [⟨1, "aaaaaaaaaaaaaaaaaaaaaaaaaaaaaaaaaaaaaaaa"⟩] 4 3).map
        List.length = some 10
    ∧ (40 - 12 + (16 - 12) - 1) / (16 - 12) = 7
    ∧ ¬ (10 - 7 ≤ 1 ∧ 7 - 10 ≤ 1) := by
  exact ⟨by decide, by decide, by norm_num, by norm_num⟩

/-! ### Claims about the chat pipeline -/

/-- C2: a chat turn whose message is not a greeting and whose retrieved
evidence is inadequate returns the fixed pre-written low-evidence answer with
an empty citation list, and the generative model is never invoked for that
turn. -/
theorem C2_low_evidence_short_circuit (env : Env) (history : List ChatMessage)
    (session_id message : String) (top_k : Nat)
    (hg : is_greeting message = false)
    (he : has_good_evidence (env.retrieve message top_k) = false) :
    (chat_with_guidelines env history session_id message top_k).response
        = some ⟨session_id, LOW_EVIDENCE_ANSWER, []⟩
    ∧ (chat_with_guidelines env history session_id message top_k).llmPrompt = none := by
  unfold chat_with_guidelines
  simp [hg, he]

def envLow : Env :=
  ⟨fun _ => none,
   fun _ _ => [⟨"ng12_p002_c0005", 2, "passage one", 2⟩,
               ⟨"ng12_p003_c0007", 3, "passage two", 2⟩],
   fun _ => "", fun _ => ""⟩

/-- Witness for C2: the message `"vague discomfort"` with two far retrieval
results short-circuits. -/
theorem C2_witness :
    is_greeting "vague discomfort" = false
    ∧ has_good_evidence (envLow.retrieve "vague discomfort" 5) = false
    ∧ ((chat_with_guidelines envLow [] "sess" "vague discomfort" 5).response
        = some ⟨"sess", LOW_EVIDENCE_ANSWER, []⟩
      ∧ (chat_with_guidelines envLow [] "sess" "vague discomfort" 5).llmPrompt = none) :=
  ⟨by decide, by decide,
   C2_low_evidence_short_circuit envLow [] "sess" "vague discomfort" 5 (by decide) (by decide)⟩

/-- C9: whenever a chat turn reaches generation, the prompt sent to the model
is the system message, then a window of at most the last 20 prior session
messages excluding the just-appended current user message, then the
retrieved-context turn; the window length is `min 20 (prior count)`, so after
25 prior messages exactly 20 are included. -/
theorem C9_session_window (env : Env) (history : List ChatMessage)
    (session_id message : String) (top_k : Nat) (p : List (String × String))
    (hp : (chat_with_guidelines env history session_id message top_k).llmPrompt = some p) :
    ∃ w, p = [("system", SYSTEM_PROMPT)] ++ w
        ++ [("user", "RETRIEVED CONTEXT:\n"
              ++ format_context env.fmt3 (env.retrieve message top_k)
              ++ "\n\nUSER QUESTION:\n" ++ message)]
      ∧ w = (history.map fun m => (m.role, m.content)).drop (history.length - 20)
      ∧ w.length = min 20 history.length := by
  have hps : p = build_messages env.fmt3 (history ++ [⟨"user", message, []⟩]) message
      (env.retrieve message top_k) := by
    simp only [chat_with_guidelines] at hp
    split at hp
    · simp at hp
    · split at hp
      · simp at hp
      · split at hp
        · split at hp
          · simp at hp; exact hp.symm
          · simp at hp; exact hp.symm
        · simp at hp; exact hp.symm
  refine ⟨(history.map fun m => (m.role, m.content)).drop (history.length - 20),
    ?_, rfl, ?_⟩
  · rw [hps]
    unfold build_messages
    rw [List.dropLast_concat, List.map_drop]
  · simp only [List.length_drop, List.length_map]
    omega

def envGen : Env :=
  ⟨fun _ => none,
   fun _ _ => [⟨"ng12_p001_c0000", 1, "Refer adults over 40 urgently.", 1⟩],
   fun _ => "raw model output", fun _ => "1.000"⟩

def hist25 : List ChatMessage := List.replicate 25 ⟨"user", "m", []⟩

/-- Witness for C9: with 25 prior messages a turn that reaches generation
carries a window of exactly `min 20 25 = 20` prior messages. -/
theorem C9_witness :
    hist25.length = 25
    ∧ ∃ w, build_messages envGen.fmt3 (hist25 ++ [⟨"user", "what are the criteria", []⟩])
          "what are the criteria" (envGen.retrieve "what are the criteria" 5)
        = [("system", SYSTEM_PROMPT)] ++ w
          ++ [("user", "RETRIEVED CONTEXT:\n"
                ++ format_context envGen.fmt3 (envGen.retrieve "what are the criteria" 5)
                ++ "\n\nUSER QUESTION:\n" ++ "what are the criteria")]
        ∧ w = (hist25.map fun m => (m.role, m.content)).drop (hist25.length - 20)
        ∧ w.length = min 20 hist25.length :=
  ⟨by decide, C9_session_window envGen hist25 "sess" "what are the criteria" 5 _ rfl⟩

/-- C10: every chat call that returns normally appends exactly two messages
to the session history — the user message with the given content, then an
assistant message whose content and citations equal the returned answer and
citations — preserving all previously appended messages; this covers the
greeting, low-evidence, successful-parse and parse-fallback paths alike. -/
theorem C10_history_append (env : Env) (history : List ChatMessage)
    (session_id message : String) (top_k : Nat) (r : ChatResponse)
    (hr : (chat_with_guidelines env history session_id message top_k).response = some r) :
    (chat_with_guidelines env history session_id message top_k).history
      = history ++ [⟨"user", message, []⟩, ⟨"assistant", r.answer, r.citations⟩]
    ∧ r.session_id = session_id := by
  simp only [chat_with_guidelines] at hr ⊢
  split at hr
  · rename_i hgr
    simp only [Option.some.injEq] at hr
    subst hr
    simp [hgr, List.append_assoc]
  · rename_i hgr
    split at hr
    · rename_i hev
      simp only [Option.some.injEq] at hr
      subst hr
      simp [hgr, hev, List.append_assoc]
    · rename_i hev
      split at hr
      · rename_i parsed hpj
        split at hr
        · rename_i ac hsb
          simp only [Option.some.injEq] at hr
          subst hr
          simp [hgr, hev, hpj, hsb, List.append_assoc]
        · simp at hr
      · rename_i hpj
        simp only [Option.some.injEq] at hr
        subst hr
        simp [hgr, hev, hpj, List.append_assoc]

set_option maxRecDepth 4000 in
/-- Witness for C10 on the greeting path: the call appends the user message
and the greeting assistant message. -/
theorem C10_witness :
    (chat_with_guidelines envGen [⟨"user", "old", []⟩] "sess" "hi" 5).response
        = some ⟨"sess", GREETING_RESPONSE, []⟩
    ∧ ((chat_with_guidelines envGen [⟨"user", "old", []⟩] "sess" "hi" 5).history
        = [⟨"user", "old", []⟩]
          ++ [⟨"user", "hi", []⟩, ⟨"assistant",
                (ChatResponse.mk "sess" GREETING_RESPONSE []).answer,
                (ChatResponse.mk "sess" GREETING_RESPONSE []).citations⟩]
      ∧ (ChatResponse.mk "sess" GREETING_RESPONSE []).session_id = "sess") :=
  ⟨by decide,
   C10_history_append envGen [⟨"user", "old", []⟩] "sess" "hi" 5
     ⟨"sess", GREETING_RESPONSE, []⟩ (by decide)⟩

theorem chatSuccessBranch_disclaimer {parsed : Json} {raw_text : String}
    {chunks : List RChunk} {a : String} {c : List Citation}
    (h : chatSuccessBranch parsed raw_text chunks = some (a, c))
    (hd : is_disclaimer a = true) : c = [] := by
  unfold chatSuccessBranch at h
  split at h
  · rename_i fs
    simp only [bind, Option.bind_eq_some] at h
    obtain ⟨elems, h1, h⟩ := h
    obtain ⟨cits, h2, h⟩ := h
    obtain ⟨ans, h3, h⟩ := h
    simp only [Option.some.injEq, Prod.mk.injEq] at h
    obtain ⟨ha, hc⟩ := h
    subst ha
    rw [hd] at hc
    simpa using hc.symm
  · simp at h

/-- C7 (amended): in the chat pipeline every normally returned answer that
contains a disclaimer marker (case-insensitive substring) carries an empty
citation list, whether parsing succeeded or fell back to the raw text; the
one-shot assessment pipeline applies no such override (see the
counterexample). -/
theorem C7_disclaimer_override_chat (env : Env) (history : List ChatMessage)
    (session_id message : String) (top_k : Nat) (r : ChatResponse)
    (hr : (chat_with_guidelines env history session_id message top_k).response = some r)
    (hd : is_disclaimer r.answer = true) :
    r.citations = [] := by
  simp only [chat_with_guidelines] at hr
  split at hr
  · simp only [Option.some.injEq] at hr
    subst hr
    rfl
  · split at hr
    · simp only [Option.some.injEq] at hr
      subst hr
      rfl
    · split at hr
      · split at hr
        · rename_i ac hsb
          simp only [Option.some.injEq] at hr
          subst hr
          exact chatSuccessBranch_disclaimer hsb hd
        · simp at hr
      · simp only [Option.some.injEq] at hr
        subst hr
        simp only at hd
        simp [hd]

def envDisc : Env :=
  ⟨fun _ => none,
   fun _ _ => [⟨"ng12_p001_c0000", 1, "Refer adults over 40 urgently.", 1⟩],
   fun _ => "We couldn't find relevant guidance for that.", fun _ => "1.000"⟩

/-- Witness for C7 on the parse-fallback path: a raw-text answer containing
`"couldn't find"` yields empty citations despite adequate evidence. -/
theorem C7_witness :
    (chat_with_guidelines envDisc [] "sess" "tell me about persistent cough" 5).response
        = some ⟨"sess", "We couldn't find relevant guidance for that.", []⟩
    ∧ is_disclaimer (ChatResponse.mk "sess"
        "We couldn't find relevant guidance for that." []).answer = true
    ∧ (ChatResponse.mk "sess" "We couldn't find relevant guidance for that." []).citations
        = [] :=
  ⟨by decide, by decide,
   C7_disclaimer_override_chat envDisc [] "sess" "tell me about persistent cough" 5
     ⟨"sess", "We couldn't find relevant guidance for that.", []⟩ (by decide) (by decide)⟩

def loadsC7 : String → Option Json :=
  fun _ => some (Json.obj
    [("risk_level", Json.str "Low Risk - Routine Follow-up"),
     ("assessment", Json.str "I couldn't find clear support in the NG12 guidelines."),
     ("citations", Json.arr [Json.obj [("page", Json.num 3)]])])

/-- C7 counterexample: an assessment whose text contains the disclaimer
marker `"couldn't find"` still carries the model-supplied citation — the
assessment pipeline never applies the disclaimer override. -/
theorem C7_counterexample :
    (assess_patient loadsC7 "final" "P001" "Jane Doe").map AssessResponse.citations
      = some [⟨"NG12 PDF", 3, "unknown", ""⟩]
    ∧ (assess_patient loadsC7 "final" "P001" "Jane Doe").map
        (fun res => is_disclaimer res.assessment) = some true := by
  exact ⟨rfl, rfl⟩

/-- C8: a chat turn with adequate evidence whose parsed answer is not a
disclaimer and whose model-supplied citation list is empty gets exactly
`min 3 (retrieved count)` synthesized citations, taken from the top retrieved
passages in retrieval order, each excerpt being the passage text, truncated
to its first 200 characters with a `"..."` marker when longer. -/
theorem C8_citation_backfill (env : Env) (history : List ChatMessage)
    (session_id message : String) (top_k : Nat) (fs : List (String × Json))
    (raw : String) (a : String)
    (hg : is_greeting message = false)
    (he : has_good_evidence (env.retrieve message top_k) = true)
    (hraw : env.llm (build_messages env.fmt3 (history ++ [⟨"user", message, []⟩]) message
        (env.retrieve message top_k)) = raw)
    (hparse : chat_parse_json env.loads raw = some (Json.obj fs))
    (hzero : iterCitations ((jlookup fs "citations").getD (Json.arr [])) = some [])
    (hans : asPyStr ((jlookup fs "answer").getD (Json.str raw)) = some a)
    (hd : is_disclaimer a = false) :
    (chat_with_guidelines env history session_id message top_k).response
      = some ⟨session_id, a, citations_from_chunks (env.retrieve message top_k) 3⟩
    ∧ (citations_from_chunks (env.retrieve message top_k) 3).length
        = min 3 (env.retrieve message top_k).length
    ∧ ∀ (i : Nat) (ci : Citation) (ch : RChunk),
        (citations_from_chunks (env.retrieve message top_k) 3)[i]? = some ci →
        (env.retrieve message top_k)[i]? = some ch →
        ci = ⟨"NG12 PDF", ch.page, ch.chunk_id,
              if 200 < ch.text.length then ch.text.take 200 ++ "..." else ch.text⟩ := by
  refine ⟨?_, ?_, ?_⟩
  · have hsb : chatSuccessBranch (Json.obj fs) raw (env.retrieve message top_k)
        = some (a, citations_from_chunks (env.retrieve message top_k) 3) := by
      unfold chatSuccessBranch
      simp only [hzero, hans, he, hd, bind, Option.some_bind, List.mapM_nil,
        pure, Option.some_bind, List.isEmpty_nil, Bool.true_and, if_true,
        Bool.false_eq_true, if_false]
    simp [chat_with_guidelines, hg, he, hraw, hparse, hsb]
  · simp [citations_from_chunks, List.length_map, List.length_take]
  · intro i ci ch hci hch
    unfold citations_from_chunks at hci
    rw [List.getElem?_map] at hci
    cases htk : ((env.retrieve message top_k).take 3)[i]? with
    | none => rw [htk] at hci; exact Option.noConfusion hci
    | some ch' =>
      rw [htk] at hci
      simp only [Option.map_some', Option.some.injEq] at hci
      have hi3 : i < 3 := by
        have h1 := List.getElem?_eq_some_iff.mp htk
        obtain ⟨h2, _⟩ := h1
        have h3 := List.length_take 3 (env.retrieve message top_k)
        omega
      rw [List.getElem?_take, if_pos hi3, hch] at htk
      cases htk
      exact hci.symm

def loadsC8 : String → Option Json :=
  fun _ => some (Json.obj [("answer", Json.str "According to NG12, refer urgently.")])

def envC8 : Env :=
  ⟨loadsC8,
   fun _ _ => [⟨"ng12_p001_c0000", 1, "Refer adults over 40 urgently.", 1⟩],
   fun _ => "model json", fun _ => "1.000"⟩

/-- Witness for C8: adequate evidence, parsed answer, no model citations ⇒
the turn returns the back-filled citations. -/
theorem C8_witness :
    is_greeting "criteria for referral" = false
    ∧ has_good_evidence (envC8.retrieve "criteria for referral" 5) = true
    ∧ ((chat_with_guidelines envC8 [] "sess" "criteria for referral" 5).response
        = some ⟨"sess", "According to NG12, refer urgently.",
            citations_from_chunks (envC8.retrieve "criteria for referral" 5) 3⟩
      ∧ (citations_from_chunks (envC8.retrieve "criteria for referral" 5) 3).length
          = min 3 (envC8.retrieve "criteria for referral" 5).length) :=
  ⟨by decide, by decide,
   (C8_citation_backfill envC8 [] "sess" "criteria for referral" 5
      [("answer", Json.str "According to NG12, refer urgently.")]
      "model json" "According to NG12, refer urgently."
      (by decide) (by decide) rfl rfl rfl rfl (by decide)).1,
   (C8_citation_backfill envC8 [] "sess" "criteria for referral" 5
      [("answer", Json.str "According to NG12, refer urgently.")]
      "model json" "According to NG12, refer urgently."
      (by decide) (by decide) rfl rfl rfl rfl (by decide)).2.1⟩

/-! ### Claims about the assessment pipeline -/

/-- C6 (amended): when the agent's final text cannot be parsed as JSON the
result carries exactly the `"Assessment Error"` sentinel, preserves the raw
model text in the assessment body (behind the fixed marker text) and has an empty
citation list, without surfacing an exception; when the parse succeeds, the
result's `risk_level` is whatever string the model supplied verbatim — one
of the four fixed levels only if the model obeys its output contract — or
the default `"Unknown"` when the field is absent. -/
theorem C6_assessment_error_handling (loads : String → Option Json)
    (final_text patient_id patient_name : String) :
    (agent_parse_json loads final_text = none →
      assess_patient loads final_text patient_id patient_name
        = some ⟨patient_id, patient_name, "Assessment Error",
            "Agent returned non-JSON response: " ++ final_text, []⟩)
    ∧ (∀ r, assess_patient loads final_text patient_id patient_name = some r →
        r.risk_level = "Assessment Error"
        ∨ ∃ fs, agent_parse_json loads final_text = some (Json.obj fs)
            ∧ (jlookup fs "risk_level" = some (Json.str r.risk_level)
               ∨ (jlookup fs "risk_level" = none ∧ r.risk_level = "Unknown"))) := by
  constructor
  · intro h
    unfold assess_patient
    rw [h]
  · intro r hr
    unfold assess_patient at hr
    cases hpj : agent_parse_json loads final_text with
    | none =>
      rw [hpj] at hr
      simp only [Option.some.injEq] at hr
      subst hr
      exact Or.inl rfl
    | some parsed =>
      rw [hpj] at hr
      cases parsed with
      | obj fs =>
        refine Or.inr ⟨fs, rfl, ?_⟩
        simp only [bind, Option.bind_eq_some] at hr
        obtain ⟨elems, h1, hr⟩ := hr
        obtain ⟨cits, h2, hr⟩ := hr
        obtain ⟨rl, h3, hr⟩ := hr
        obtain ⟨asmt, h4, hr⟩ := hr
        simp only [Option.some.injEq] at hr
        subst hr
        cases hrl : jlookup fs "risk_level" with
        | none =>
          rw [hrl] at h3
          simp only [Option.getD_none, asPyStr, Option.some.injEq] at h3
          exact Or.inr ⟨rfl, h3.symm⟩
        | some v =>
          rw [hrl] at h3
          cases v with
          | str s =>
            simp only [Option.getD_some, asPyStr, Option.some.injEq] at h3
            subst h3
            exact Or.inl rfl
          | null => simp [asPyStr] at h3
          | bool b => simp [asPyStr] at h3
          | num n => simp [asPyStr] at h3
          | arr l => simp [asPyStr] at h3
          | obj o => simp [asPyStr] at h3
      | null => simp at hr
      | bool b => simp at hr
      | num n => simp at hr
      | str s => simp at hr
      | arr l => simp at hr

def loadsNone : String → Option Json := fun _ => none

/-- Witness for C6: an unparseable final text degrades to the sentinel
response with the raw text preserved and no citations. -/
theorem C6_witness :
    agent_parse_json loadsNone "oops not json" = none
    ∧ assess_patient loadsNone "oops not json" "P001" "Jane Doe"
        = some ⟨"P001", "Jane Doe", "Assessment Error",
            "Agent returned non-JSON response: " ++ "oops not json", []⟩ :=
  ⟨rfl, (C6_assessment_error_handling loadsNone "oops not json" "P001" "Jane Doe").1 rfl⟩

def loadsBanana : String → Option Json :=
  fun _ => some (Json.obj
    [("risk_level", Json.str "Banana"),
     ("assessment", Json.str "Made-up reasoning."),
     ("citations", Json.arr [])])

/-- C6 counterexample: a parsed model output whose `risk_level` is the
arbitrary string `"Banana"` is passed through verbatim, so the result's
risk level is neither one of the four fixed levels nor the sentinel. -/
theorem C6_counterexample :
    (assess_patient loadsBanana "final" "P001" "Jane Doe").map AssessResponse.risk_level
      = some "Banana"
    ∧ ¬ ("Banana" ∈ ["Urgent Referral (2-week wait)", "Urgent Investigation",
          "Non-Urgent Referral", "Low Risk - Routine Follow-up", "Assessment Error"]) := by
  exact ⟨rfl, by decide⟩

/-! ### Claim C5: the output parsers -/

/-- C5 (amended): the chat parser applies, in order: (1) the content of a
```json fence when one is present, (2) else the content of any ``` fence,
(3) else the whole text — parsing the trimmed selected candidate — and then
(4) on failure the substring of the raw text from the first opening brace to
the last closing brace inclusive, any remaining failure propagating to the
caller's raw-text fallback.  The assessment parser applies only stages
(1)–(3): every failure there is a parse failure handled by the caller's
fallback (the claimed stage (4) fails for it; see the counterexample). -/
theorem C5_output_parsing_stages :
    (∀ (loads : String → Option Json) (raw_text : String) (v : Json),
       pyContains raw_text "```json" = false → pyContains raw_text "```" = false →
       loads (pyStrip raw_text) = some v →
       chat_parse_json loads raw_text = some v ∧ agent_parse_json loads raw_text = some v)
    ∧ (∀ (loads : String → Option Json) (raw_text : String) (v : Json),
       pyContains raw_text "```json" = true →
       loads (pyStrip ⟨(pySplit FENCE ((pySplit FENCE_JSON raw_text.data).getD 1 [])).getD 0 []⟩)
         = some v →
       chat_parse_json loads raw_text = some v ∧ agent_parse_json loads raw_text = some v)
    ∧ (∀ (loads : String → Option Json) (raw_text : String) (v : Json),
       pyContains raw_text "```json" = false → pyContains raw_text "```" = true →
       loads (pyStrip ⟨(pySplit FENCE ((pySplit FENCE raw_text.data).getD 1 [])).getD 0 []⟩)
         = some v →
       chat_parse_json loads raw_text = some v ∧ agent_parse_json loads raw_text = some v)
    ∧ (∀ (loads : String → Option Json) (raw_text : String) (f l : Nat),
       loads (pyStrip (selectCandidate raw_text)) = none →
       findSub ['\x7b'] raw_text.data = some f →
       rfindChar '\x7d' raw_text.data = some l →
       f < l →
       chat_parse_json loads raw_text = loads ⟨(raw_text.data.drop f).take (l + 1 - f)⟩)
    ∧ (∀ (loads : String → Option Json) (raw_text : String),
       loads (pyStrip (selectCandidate raw_text)) = none →
       agent_parse_json loads raw_text = none) := by
  refine ⟨?_, ?_, ?_, ?_, ?_⟩
  · intro loads raw_text v h1 h2 h3
    have hc : selectCandidate raw_text = raw_text := by
      unfold selectCandidate
      simp [h1, h2]
    constructor
    · unfold chat_parse_json
      rw [hc, h3]
    · unfold agent_parse_json
      rw [hc, h3]
  · intro loads raw_text v h1 h3
    have hc : selectCandidate raw_text
        = ⟨(pySplit FENCE ((pySplit FENCE_JSON raw_text.data).getD 1 [])).getD 0 []⟩ := by
      unfold selectCandidate
      simp [h1]
    constructor
    · unfold chat_parse_json
      rw [hc, h3]
    · unfold agent_parse_json
      rw [hc, h3]
  · intro loads raw_text v h1 h2 h3
    have hc : selectCandidate raw_text
        = ⟨(pySplit FENCE ((pySplit FENCE raw_text.data).getD 1 [])).getD 0 []⟩ := by
      unfold selectCandidate
      simp [h1, h2]
    constructor
    · unfold chat_parse_json
      rw [hc, h3]
    · unfold agent_parse_json
      rw [hc, h3]
  · intro loads raw_text f l h1 h2 h3 h4
    unfold chat_parse_json
    rw [h1, h2, h3]
    simp [h4]
  · intro loads raw_text h1
    unfold agent_parse_json
    rw [h1]

def loadsC5 : String → Option Json :=
  fun s => if s = "\x7b\"a\":1\x7d" then some (Json.obj [("a", Json.num 1)]) else none

/-- C5 counterexample: on a raw text with a JSON object buried in prose the
brace stage (4) extracts the inner object in the chat parser, but the
assessment parser has no stage (4) and fails, contradicting the claim that
the output parser applies all four stages to every raw text. -/
theorem C5_counterexample :
    chat_parse_json loadsC5 "blah blah \x7b\"a\":1\x7d trailing"
      = some (Json.obj [("a", Json.num 1)])
    ∧ agent_parse_json loadsC5 "blah blah \x7b\"a\":1\x7d trailing" = none :=
  ⟨rfl, rfl⟩

/-- Witness for C5 at the brace-extraction example. -/
theorem C5_witness :
    loadsC5 (pyStrip (selectCandidate "blah blah \x7b\"a\":1\x7d trailing")) = none
    ∧ findSub ['\x7b'] "blah blah \x7b\"a\":1\x7d trailing".data = some 10
    ∧ rfindChar '\x7d' "blah blah \x7b\"a\":1\x7d trailing".data = some 16
    ∧ chat_parse_json loadsC5 "blah blah \x7b\"a\":1\x7d trailing"
        = loadsC5 ⟨("blah blah \x7b\"a\":1\x7d trailing".data.drop 10).take (16 + 1 - 10)⟩ :=
  ⟨rfl, by decide, by decide,
   C5_output_parsing_stages.2.2.2.1 loadsC5 "blah blah \x7b\"a\":1\x7d trailing" 10 16
     rfl (by decide) (by decide) (by norm_num)⟩

end NG12
